import Mathlib

/-!
Verification of the justpipe execution core against its sources.

The development shallowly embeds the registration-time and invocation-time
logic of the repository:

* `utils.py` — the signature analyzer `_analyze_signature`;
* `pipe.py` — `Pipe._register_step_config`, `Pipe._wrap_step` and the
  `switch_wrapper` closure built by `Pipe.switch`;
* `invoker.py` — `_StepInvoker.execute` (step lookup, timeout handling,
  async-generator consumption) and `_StepInvoker.handle_error`.

The routing-value classes and event types live in the module `types.py`,
which is not among the provided sources; they are modelled from the
specification as a closed tagged variant (spec section 3). Python machine
details that no theorem observes (logging, traceback text, the asyncio
event loop) are not modelled; wall-clock time for `asyncio.wait_for` is
modelled by an explicit per-invocation duration.
-/

namespace JustPipe

/-- Python type annotations as compared by identity in `_analyze_signature`
(utils.py lines 24-27): `Ty.any` models `typing.Any`, `Ty.named s` any other
concrete type object. -/
inductive Ty where
  | any
  | named (s : String)
deriving DecidableEq, Repr

/-- One parameter of a Python callable signature: its name, its optional
annotation (`none` models `inspect.Parameter.empty`) and whether a default
value is present (`param.default is not inspect.Parameter.empty`). -/
structure Param where
  name : String
  ann : Option Ty
  hasDefault : Bool
deriving DecidableEq, Repr

/-- Injection sources assigned by `_analyze_signature` (utils.py): the
strings "state", "context", "error", "step_name" and "unknown". -/
inductive Source where
  | state
  | context
  | error
  | stepName
  | unknown
deriving DecidableEq, Repr

/-- Alias table `STATE_ALIASES` (utils.py line 6). -/
def STATE_ALIASES : List String := ["s", "state"]

/-- Alias table `CONTEXT_ALIASES` (utils.py line 7). -/
def CONTEXT_ALIASES : List String := ["c", "ctx", "context"]

/-- Alias table `ERROR_ALIASES` (utils.py line 8). -/
def ERROR_ALIASES : List String := ["e", "error", "exception"]

/-- Alias table `STEP_NAME_ALIASES` (utils.py line 9). -/
def STEP_NAME_ALIASES : List String := ["step_name", "stage"]

/-- Body of the classification loop of `_analyze_signature` (utils.py lines
22-42) for one parameter: the source stored into `mapping`, or `none` for
the `continue` branch (default value present and no match). -/
def paramSource (st ct : Ty) (p : Param) : Option Source :=
  if p.ann = some st ∧ st ≠ Ty.any then some Source.state
  else if p.ann = some ct ∧ ct ≠ Ty.any then some Source.context
  else if p.name ∈ STATE_ALIASES then some Source.state
  else if p.name ∈ CONTEXT_ALIASES then some Source.context
  else if p.name ∈ ERROR_ALIASES then some Source.error
  else if p.name ∈ STEP_NAME_ALIASES then some Source.stepName
  else if p.hasDefault then none
  else some Source.unknown

/-- The `mapping` dict built by the loop of `_analyze_signature`, as an
association list in parameter order (Python signature parameter names are
unique, and dicts preserve insertion order). -/
def buildMapping (st ct : Ty) (params : List Param) : List (String × Source) :=
  params.filterMap fun p => (paramSource st ct p).map fun src => (p.name, src)

/-- The `unknowns` list accumulated by the loop of `_analyze_signature`
(utils.py lines 41-42). -/
def unknownsOf (st ct : Ty) (params : List Param) : List String :=
  params.filterMap fun p =>
    if paramSource st ct p = some Source.unknown then some p.name else none

/-- The function `_analyze_signature` (utils.py lines 12-52): it returns the
injection mapping, or raises `DefinitionError` (modelled as the error branch,
message abbreviated to its variable parts) when the unknowns exceed
`expected_unknowns`. -/
def analyzeSignature (fname : String) (params : List Param) (st ct : Ty)
    (expectedUnknowns : Nat) : Except String (List (String × Source)) :=
  let mapping := buildMapping st ct params
  let unknowns := unknownsOf st ct params
  if unknowns.length > expectedUnknowns then
    Except.error ("Step \x27" ++ fname ++ "\x27 has " ++
      toString unknowns.length ++ " unrecognized parameters: " ++
      toString unknowns ++ ". Expected " ++ toString expectedUnknowns ++
      " unknown parameter(s) for this step type.")
  else
    Except.ok mapping

/-- Modelled from the spec, section 4.2 rule 1: assignment by annotated type,
when the annotation is precisely the state or context type and that type is
not the wildcard type. -/
def specAssignByType (st ct : Ty) (p : Param) : Option Source :=
  if st ≠ Ty.any ∧ p.ann = some st then some Source.state
  else if ct ≠ Ty.any ∧ p.ann = some ct then some Source.context
  else none

/-- Modelled from the spec, section 4.2 rule 2: assignment by name through
the four alias tables. -/
def specAssignByName (p : Param) : Option Source :=
  if p.name = "s" ∨ p.name = "state" then some Source.state
  else if p.name = "c" ∨ p.name = "ctx" ∨ p.name = "context" then
    some Source.context
  else if p.name = "e" ∨ p.name = "error" ∨ p.name = "exception" then
    some Source.error
  else if p.name = "step_name" ∨ p.name = "stage" then some Source.stepName
  else none

/-- Modelled from the spec, section 4.2 rules 1-4 in order: by type, then by
name, then defaulted parameters are ignored, and all remaining parameters are
unknowns. -/
def specParamSource (st ct : Ty) (p : Param) : Option Source :=
  match specAssignByType st ct p with
  | some src => some src
  | none =>
    match specAssignByName p with
    | some src => some src
    | none => if p.hasDefault then none else some Source.unknown

/-! Routing values, yielded items and events.  The classes `_Next`, `_Map`,
`_Run`, `Suspend`, `_Stop` and `Event`/`EventType` live in `types.py`, which
is not among the provided sources; they are modelled from the spec. -/

/-- Modelled from the spec (section 3 and the design note on routing): the
closed tagged variant of routing values returned by steps. The type `a` is
the payload type of map items and sub-pipeline states; the `run` variant
carries the sub-pipeline by name. -/
inductive Routing (a : Type) where
  | next (target : String)
  | mapTo (items : List a) (target : String)
  | run (pipeName : String) (state : a)
  | suspend
  | stop
deriving DecidableEq, Repr

/-- An item produced by a step body: one of the routing values, or a plain
value. Async-generator steps yield a sequence of these; plain coroutine
steps return one of these (or Python `None`, modelled at the use site). -/
inductive Yielded (a : Type) where
  | route (r : Routing a)
  | value (v : a)
deriving DecidableEq, Repr

/-- Modelled from the spec (section 3): event kinds. -/
inductive EventType where
  | START
  | FINISH
  | STEP_START
  | STEP_END
  | STEP_ERROR
  | TOKEN
  | PIPELINE_ERROR
deriving DecidableEq, Repr

/-- Modelled from the spec (section 3): an event `Event(type, stage,
payload)`; the timestamp is not modelled. The invoker constructs
`Event(EventType.TOKEN, name, item)` where `item` is a yielded item. -/
structure Event (a : Type) where
  type : EventType
  stage : String
  payload : Yielded a
deriving DecidableEq, Repr

/-- Association-list lookup modelling Python `dict.get` for string keys. -/
def lookupStr {b : Type} : List (String × b) → String → Option b
  | [], _ => none
  | (k, v) :: rest, key => if key = k then some v else lookupStr rest key

/-- Python dict assignment `d[k] = v`: replace in place when the key exists,
append otherwise. -/
def dictSet {b : Type} : List (String × b) → String → b → List (String × b)
  | [], k, v => [(k, v)]
  | (k0, v0) :: rest, k, v =>
      if k = k0 then (k, v) :: rest else (k0, v0) :: dictSet rest k v

/-! The switch wrapper (pipe.py, `Pipe.switch`, lines 211-278). -/

/-- A route target as stored in the `routes` dict or returned by a callable
router: a next-step name or the `Stop` sentinel (an instance of `_Stop`).
Callable-valued targets are outside the claims and not modelled. -/
inductive RouteVal where
  | name (s : String)
  | stop
deriving DecidableEq, Repr

/-- Key-based lookup modelling `routes.get(result, default)` on a dict with
keys of type `k` (Python equality hashing modelled by decidable equality). -/
def lookupKey {k : Type} [DecidableEq k] :
    List (k × RouteVal) → k → Option RouteVal
  | [], _ => none
  | (k0, v) :: rest, key => if key = k0 then some v else lookupKey rest key

/-- The `routes` argument of `Pipe.switch`: a dict, or a callable router
returning a target or `None`. -/
inductive RoutesArg (k : Type) where
  | table (entries : List (k × RouteVal))
  | dynamic (f : k → Option RouteVal)

/-- The ValueError message raised by `switch_wrapper` (pipe.py lines
267-271) when no route matches and no default is provided. -/
def noRouteMsg (stageName result : String) : String :=
  "Step \x27" ++ stageName ++ "\x27 (switch) returned " ++ result ++
    ", which matches no route and no default was provided."

/-- The closure `switch_wrapper` (pipe.py lines 259-273) applied to the user
return `result`: resolve the target via the raw `routes` dict with `default`
as fallback, or via the callable router (which ignores `default`); raise on
`None`; otherwise normalize to `Stop` or `_Next(target)`. The error branch
is the `Except.error` constructor. -/
def switchWrapper {k a : Type} [DecidableEq k] [ToString k]
    (stageName : String) (routes : RoutesArg k) (dflt : Option RouteVal)
    (result : k) : Except String (Routing a) :=
  let target : Option RouteVal :=
    match routes with
    | RoutesArg.table entries =>
        match lookupKey entries result with
        | some v => some v
        | none => dflt
    | RoutesArg.dynamic f => f result
  match target with
  | none => Except.error (noRouteMsg stageName (toString result))
  | some RouteVal.stop => Except.ok Routing.stop
  | some (RouteVal.name t) => Except.ok (Routing.next t)

/-! The invoker error chain (`_StepInvoker.handle_error`, invoker.py lines
108-133). Exceptions are modelled as strings; handler calls receive the
current exception (the injection machinery passes it through the resolved
kwargs) and either return a value or raise. -/

/-- An error-handler callable: `hid` models Python object identity, used by
the comparison `handler != self._on_error`; `beh` models calling the handler
on the current exception, returning a value or raising. -/
structure Handler (a : Type) where
  hid : Nat
  beh : String → Except String a

/-- The comparison `handler != self._on_error` (invoker.py line 128), where
`self._on_error` may be `None`. -/
def handlerNeq {a : Type} (h : Handler a) : Option (Handler a) → Bool
  | none => true
  | some g => h.hid != g.hid

/-- The function `handle_error` re-entered with `use_global=True` (invoker.py
line 129). The effective handler is then `self._on_error` regardless of the
per-step handler. When this handler raises, the guard
`handler != self._on_error` is False — the handler IS `self._on_error` — so
the new exception is re-raised with no further recursion; that branch is
therefore written directly as `Except.error e`. With no global handler the
default handler only logs, then `raise error`. -/
def handleErrorGlobal {a : Type} (globalH : Option (Handler a))
    (error : String) : Except String a :=
  match globalH with
  | some h =>
      match h.beh error with
      | Except.ok v => Except.ok v
      | Except.error e => Except.error e
  | none => Except.error error

/-- The function `handle_error` as first entered by the runner, with
`use_global=False` (invoker.py lines 108-133): the effective handler is the
per-step `on_error` when present, else the global handler. If it raises and
is distinct from a configured global handler, re-enter with
`use_global=True`; otherwise re-raise the new exception. With no handler at
all, the default handler logs and the original error is re-raised. -/
def handleError {a : Type} (stepH globalH : Option (Handler a))
    (error : String) : Except String a :=
  let chosen := match stepH with
    | none => globalH
    | some h => some h
  match chosen with
  | some h =>
      match h.beh error with
      | Except.ok v => Except.ok v
      | Except.error e =>
          if handlerNeq h globalH && globalH.isSome then
            handleErrorGlobal globalH e
          else Except.error e
  | none => Except.error error

/-! The invoker execute path (`_StepInvoker.execute`, invoker.py lines
71-106). The kwargs resolution (payload overlay plus injections, lines
86-87) does not affect any observable of the claims and is folded into the
abstract step behavior. -/

/-- The isinstance test of the generator loop (invoker.py line 93),
`isinstance(item, (_Next, _Map, _Run, Suspend))`, returned as the matched
routing value: note `_Stop` is NOT in the tuple, so a yielded `Stop`
produces `none` here and falls to the TOKEN branch. -/
def routingOf {a : Type} : Yielded a → Option (Routing a)
  | Yielded.route (Routing.next t) => some (Routing.next t)
  | Yielded.route (Routing.mapTo xs t) => some (Routing.mapTo xs t)
  | Yielded.route (Routing.run p s) => some (Routing.run p s)
  | Yielded.route Routing.suspend => some Routing.suspend
  | Yielded.route Routing.stop => none
  | Yielded.value _ => none

/-- One iteration of the `async for` loop in `_exec` (invoker.py lines
92-96) over the accumulator (`last_val`, queued TOKEN events). -/
def genStep {a : Type} (name : String)
    (acc : Option (Routing a) × List (Event a)) (item : Yielded a) :
    Option (Routing a) × List (Event a) :=
  match item with
  | Yielded.route (Routing.next t) => (some (Routing.next t), acc.2)
  | Yielded.route (Routing.mapTo xs t) => (some (Routing.mapTo xs t), acc.2)
  | Yielded.route (Routing.run p s) => (some (Routing.run p s), acc.2)
  | Yielded.route Routing.suspend => (some Routing.suspend, acc.2)
  | other => (acc.1, acc.2 ++ [Event.mk EventType.TOKEN name other])

/-- The whole generator loop of `_exec` (invoker.py lines 91-97): starting
from `last_val = None` and an empty queue, returns the final `last_val` and
the TOKEN events put on the queue, in order. -/
def consumeGen {a : Type} (name : String) (items : List (Yielded a)) :
    Option (Routing a) × List (Event a) :=
  items.foldl (genStep name) (none, [])

/-- A step return value: `none` models Python `None`, otherwise a routing
value or a plain value. -/
abbrev RVal (a : Type) := Option (Yielded a)

/-- The observable behavior of one registered step body: the body is either
an async generator (its yielded items) or a plain coroutine (its return, or
the exception it raises). -/
inductive FBody (a : Type) where
  | gen (items : List (Yielded a))
  | plain (r : Except String (RVal a))

/-- The observable behavior of one registered (wrapped) step callable:
`duration` models the wall-clock seconds one invocation takes, used by the
`asyncio.wait_for` deadline; `body` the work it does. -/
structure FuncBeh (a : Type) where
  duration : ℚ
  body : FBody a

/-- The inner coroutine `_exec` (invoker.py lines 89-99): consume an async
generator into TOKEN events and a last routing decision, or await a plain
coroutine. Produces the return value and the events put on the queue. -/
def execBody {a : Type} (name : String) :
    FBody a → Except String (RVal a × List (Event a))
  | FBody.gen items =>
      let res := consumeGen name items
      Except.ok (res.1.map Yielded.route, res.2)
  | FBody.plain r => r.map fun v => (v, [])

/-- Per-step metadata as consumed by `execute`:
`self._step_metadata.get(name, {}).get("timeout")`; a missing entry and an
explicit `None` both collapse to `none`. -/
structure StepMetaT where
  timeout : Option ℚ

/-- Python truthiness of the timeout value (`if timeout:` at invoker.py line
101): absent, `None` and `0` are falsy. -/
def timeoutTruthy : Option ℚ → Bool
  | none => false
  | some t => t != 0

/-- The TimeoutError message of invoker.py line 105. -/
def timeoutMsg (name : String) (t : ℚ) : String :=
  "Step \x27" ++ name ++ "\x27 timed out after " ++ toString t ++ "s"

/-- Failure modes of `execute`: the `ValueError("Step not found: ...")` of
line 80, the `TimeoutError` of line 105, and exceptions raised by the step
body itself. -/
inductive ExecErr where
  | stepNotFound (msg : String)
  | timeout (msg : String)
  | user (msg : String)
deriving DecidableEq, Repr

/-- The function `_StepInvoker.execute` (invoker.py lines 71-106): look the
step up (`ValueError` when absent), then run `_exec` under
`asyncio.wait_for` when the step timeout is truthy — expiry, modelled as the
invocation duration exceeding the deadline, becomes a `TimeoutError` — and
with no deadline otherwise. A `TimeoutError` raised by the body itself (also
caught by line 104) is not modelled: body exceptions stay `user` failures. -/
def execute {a : Type} (steps : List (String × FuncBeh a))
    (meta : String → StepMetaT) (name : String) :
    Except ExecErr (RVal a × List (Event a)) :=
  match lookupStr steps name with
  | none => Except.error (ExecErr.stepNotFound ("Step not found: " ++ name))
  | some f =>
      match (meta name).timeout with
      | some tv =>
          if tv != 0 then
            if f.duration > tv then
              Except.error (ExecErr.timeout (timeoutMsg name tv))
            else (execBody name f.body).mapError ExecErr.user
          else (execBody name f.body).mapError ExecErr.user
      | none => (execBody name f.body).mapError ExecErr.user

/-! Registration (`Pipe._register_step_config` and `Pipe._wrap_step`,
pipe.py lines 91-140), shared by the `step`, `map`, `switch` and `sub`
decorators. -/

/-- A user callable at registration time: `fid` models Python object
identity, `fname` its `__name__`, `params` its signature. -/
structure PyFunc where
  fid : Nat
  fname : String
  params : List Param
deriving DecidableEq, Repr

/-- The per-step metadata record stored by `_register_step_config` (pipe.py
lines 105-109): the decorator keyword arguments (here: the timeout) plus
`barrier_timeout` and the per-step `on_error` handler (by identity). -/
structure StepMetaRec where
  timeout : Option ℚ
  barrierTimeout : Option ℚ
  onError : Option Nat
deriving DecidableEq

/-- The `expected_unknowns` default of `_register_step_config` (pipe.py line
100). The decorators `step` (line 153), `map` (line 181), `switch` (line
246) and `sub` (line 297) all call `_register_step_config` with five
positional arguments plus extra keyword metadata and never pass
`expected_unknowns`, so the user callables of all four step kinds are
analyzed against this default. -/
def registerExpectedUnknowns : Nat := 1

/-- The `expected_unknowns` value used for error handlers: the pipeline
global handler (pipe.py lines 86-88) and per-step `on_error` handlers
(lines 119-122) are analyzed with `expected_unknowns=0`. -/
def onErrorExpectedUnknowns : Nat := 0

/-- The registration-relevant state of a `Pipe`: `self._steps` (name to the
wrapped callable, by identity), `self._step_metadata` and
`self._injection_metadata`. The `to`-topology and the `on_error` injection
entry are not observed by any claim and are omitted. -/
structure PipeState where
  steps : List (String × Nat)
  stepMeta : List (String × StepMetaRec)
  injMeta : List (String × List (String × Source))

/-- Combined `Pipe._register_step_config` (pipe.py lines 91-130) and
`Pipe._wrap_step` (lines 132-140) as performed by each decorator: store the
metadata record, analyze the user callable signature with the
`expected_unknowns` default (a raised `DefinitionError` aborts
registration), store the injection mapping and the middleware-wrapped
callable (`wrap` models the middleware stack applied by `_wrap_step`). All
three dict writes are plain assignments — no existing entry is ever checked
for. In the source the metadata assignment precedes the signature analysis,
so a failed registration has already mutated `self._step_metadata`; the
model returns the error without the mutated state, which no claim
observes. -/
def registerStepConfig (wrap : Nat → Nat) (st ct : Ty) (p : PipeState)
    (stageName : String) (func : PyFunc) (metaRec : StepMetaRec) :
    Except String PipeState :=
  match analyzeSignature func.fname func.params st ct
      registerExpectedUnknowns with
  | Except.error e => Except.error e
  | Except.ok inj =>
      Except.ok
        (PipeState.mk
          (dictSet p.steps stageName (wrap func.fid))
          (dictSet p.stepMeta stageName metaRec)
          (dictSet p.injMeta stageName inj))

/-! Helper lemmas shared by the claim theorems. -/

/-- Helper: a just-assigned dict key reads back the assigned value. -/
theorem lookupStr_dictSet_self {b : Type} (l : List (String × b)) (k : String)
    (v : b) : lookupStr (dictSet l k v) k = some v := by
  induction l with
  | nil => simp [dictSet, lookupStr]
  | cons hd tl ih =>
      obtain ⟨k0, v0⟩ := hd
      by_cases h : k = k0
      · simp [dictSet, lookupStr, h]
      · simp [dictSet, lookupStr, h, ih]

/-- Helper: `handleErrorGlobal` is exactly the outcome of calling the global
handler, when one is configured. -/
theorem handleErrorGlobal_eq_beh {a : Type} (g : Handler a) (e : String) :
    handleErrorGlobal (some g) e = g.beh e := by
  cases hb : g.beh e <;> simp [handleErrorGlobal, hb]

/-- Claim C1 (corrected): when the per-step handler raises a new exception
`e1` and a distinct global handler is configured, `handle_error` invokes the
global handler on `e1` and returns or raises exactly what that call returns
or raises — so when the global handler raises `e2`, it is `e2` (not the
original step exception) that propagates, and there is no third-level
recursion; when no global handler is configured, the per-step handler
exception `e1` (again, not the original step exception) propagates. -/
theorem C1_handle_error_chain {a : Type} (h1 h2 : Handler a) (err e1 : String)
    (hne : h1.hid ≠ h2.hid) (hraise : h1.beh err = Except.error e1) :
    handleError (some h1) (some h2) err = h2.beh e1
    ∧ handleError (some h1) none err = Except.error e1 := by
  constructor
  · unfold handleError
    simp only [hraise, handlerNeq, Option.isSome_some, Bool.and_true]
    rw [if_pos (by simp [bne_iff_ne, hne])]
    exact handleErrorGlobal_eq_beh h2 e1
  · unfold handleError
    simp [hraise, handlerNeq]

/-- Witness for C1_handle_error_chain at concrete handlers: the per-step
handler (id 1) raises "E1", the global handler (id 2) prefixes "G:"; the
chain produces the global handler failure "G:E1", and with no global handler
it produces "E1". -/
theorem C1_handle_error_chain_witness :
    handleError (some (Handler.mk 1 (fun _ => Except.error "E1")))
        (some (Handler.mk (a := Unit) 2 (fun e => Except.error ("G:" ++ e))))
        "E0"
      = Except.error "G:E1"
    ∧ handleError (some (Handler.mk (a := Unit) 1 (fun _ => Except.error "E1")))
        none "E0"
      = Except.error "E1" := by
  have h := C1_handle_error_chain
    (Handler.mk (a := Unit) 1 (fun _ => Except.error "E1"))
    (Handler.mk 2 (fun e => Except.error ("G:" ++ e)))
    "E0" "E1" (by decide) rfl
  exact ⟨h.1.trans rfl, h.2⟩

/-- Counterexample to claim C1 as stated: per-step handler (id 1) raises
"E1" on the step exception "E0", the global handler (id 2) raises "E2"; the
exception propagating out of `handle_error` is "E2", the global handler
exception, not the original step exception "E0". -/
theorem C1_counterexample :
    handleError (some (Handler.mk (a := Unit) 1 (fun _ => Except.error "E1")))
        (some (Handler.mk 2 (fun _ => Except.error "E2"))) "E0"
      = Except.error "E2"
    ∧ (Except.error "E2" : Except String Unit) ≠ Except.error "E0" := by
  exact ⟨rfl, by simp⟩

/-- Claim C5 (confirmed): a dict-routed switch whose user return matches no
route and has no default fails with the ValueError whose message contains
"matches no route"; a matched name target yields `Next(target)`, a matched
`Stop` yields `Stop`, an unmatched return with a default yields the default
likewise, and with a default present the wrapper never raises. -/
theorem C5_switch_no_match {k : Type} [DecidableEq k] [ToString k]
    (stage : String) (entries : List (k × RouteVal)) (dflt : Option RouteVal)
    (result : k) :
    (lookupKey entries result = none → dflt = none →
        switchWrapper (a := Unit) stage (RoutesArg.table entries) dflt result
          = Except.error (noRouteMsg stage (toString result)))
    ∧ (∀ t, lookupKey entries result = some (RouteVal.name t) →
        switchWrapper (a := Unit) stage (RoutesArg.table entries) dflt result
          = Except.ok (Routing.next t))
    ∧ (lookupKey entries result = some RouteVal.stop →
        switchWrapper (a := Unit) stage (RoutesArg.table entries) dflt result
          = Except.ok Routing.stop)
    ∧ (∀ t, lookupKey entries result = none →
        dflt = some (RouteVal.name t) →
        switchWrapper (a := Unit) stage (RoutesArg.table entries) dflt result
          = Except.ok (Routing.next t))
    ∧ (dflt.isSome = true → ∀ msg,
        switchWrapper (a := Unit) stage (RoutesArg.table entries) dflt result
          ≠ Except.error msg)
    ∧ noRouteMsg stage (toString result)
        = ("Step \x27" ++ stage ++ "\x27 (switch) returned "
            ++ toString result ++ ", which ")
          ++ "matches no route" ++ " and no default was provided." := by
  refine ⟨?_, ?_, ?_, ?_, ?_, ?_⟩
  · intro hmiss hd
    simp [switchWrapper, hmiss, hd]
  · intro t hname
    simp [switchWrapper, hname]
  · intro hstop
    simp [switchWrapper, hstop]
  · intro t hmiss hd
    simp [switchWrapper, hmiss, hd]
  · intro hd msg
    unfold switchWrapper
    cases hk : lookupKey entries result with
    | some v => cases v <;> simp [hk]
    | none =>
        cases dflt with
        | none => simp at hd
        | some d => cases d <;> simp [hk]
  · simp [noRouteMsg, String.append_assoc]

/-- Witness for C5_switch_no_match on the concrete route table of the spec
scenario: `routes = ("x" maps to "y", "q" maps to Stop)`; the return "z"
with no default raises the no-route error, "x" routes to `Next "y"`, "q"
stops, and "z" with default "d" routes to `Next "d"`. -/
theorem C5_switch_no_match_witness :
    switchWrapper (a := Unit) "sw"
        (RoutesArg.table [("x", RouteVal.name "y"), ("q", RouteVal.stop)])
        none "z"
      = Except.error (noRouteMsg "sw" "z")
    ∧ switchWrapper (a := Unit) "sw"
        (RoutesArg.table [("x", RouteVal.name "y"), ("q", RouteVal.stop)])
        none "x"
      = Except.ok (Routing.next "y")
    ∧ switchWrapper (a := Unit) "sw"
        (RoutesArg.table [("x", RouteVal.name "y"), ("q", RouteVal.stop)])
        none "q"
      = Except.ok Routing.stop
    ∧ switchWrapper (a := Unit) "sw"
        (RoutesArg.table [("x", RouteVal.name "y"), ("q", RouteVal.stop)])
        (some (RouteVal.name "d")) "z"
      = Except.ok (Routing.next "d") := by
  refine ⟨?_, ?_, ?_, ?_⟩
  · exact (C5_switch_no_match "sw" _ none "z").1 rfl rfl
  · exact (C5_switch_no_match "sw" _ none "x").2.1 "y" rfl
  · exact (C5_switch_no_match "sw" _ none "q").2.2.1 rfl
  · exact (C5_switch_no_match "sw" _ (some (RouteVal.name "d")) "z").2.2.2.1
      "d" rfl rfl

/-- Claim C10 (confirmed): with a callable `routes`, the declared default is
never consulted — the wrapper behaves identically with and without it — and
when the router returns `None` the invocation fails with the no-route error
even though a default was provided. -/
theorem C10_dynamic_ignores_default {k : Type} [DecidableEq k] [ToString k]
    (stage : String) (f : k → Option RouteVal) (d : RouteVal) (result : k)
    (h : f result = none) :
    switchWrapper (a := Unit) stage (RoutesArg.dynamic f) (some d) result
      = Except.error (noRouteMsg stage (toString result))
    ∧ ∀ r : k, switchWrapper (a := Unit) stage (RoutesArg.dynamic f)
          (some d) r
        = switchWrapper (a := Unit) stage (RoutesArg.dynamic f) none r := by
  constructor
  · simp [switchWrapper, h]
  · intro r
    rfl

/-- Witness for C10_dynamic_ignores_default: a router that maps everything
to `None`, with default "d" declared, still raises the no-route error on
return "z". -/
theorem C10_dynamic_ignores_default_witness :
    switchWrapper (a := Unit) "sw"
        (RoutesArg.dynamic (fun _ : String => none)) (some (RouteVal.name "d"))
        "z"
      = Except.error (noRouteMsg "sw" "z") := by
  exact (C10_dynamic_ignores_default "sw" (fun _ => none)
    (RouteVal.name "d") "z" rfl).1

/-- Helper: running the step body never produces a step-not-found failure. -/
theorem mapError_user_ne_stepNotFound {a : Type}
    (r : Except String (RVal a × List (Event a))) (msg : String) :
    r.mapError ExecErr.user ≠ Except.error (ExecErr.stepNotFound msg) := by
  cases r <;> simp [Except.mapError]

/-- Claim C7 (confirmed): `execute` on an unregistered name fails with the
step-not-found error naming the bad reference, and on a registered name it
never produces that error. -/
theorem C7_step_not_found {a : Type} (steps : List (String × FuncBeh a))
    (meta : String → StepMetaT) (name : String) :
    (lookupStr steps name = none →
        execute steps meta name
          = Except.error (ExecErr.stepNotFound ("Step not found: " ++ name)))
    ∧ (∀ f, lookupStr steps name = some f →
        ∀ msg, execute steps meta name
          ≠ Except.error (ExecErr.stepNotFound msg)) := by
  constructor
  · intro hmiss
    simp [execute, hmiss]
  · intro f hreg msg
    simp only [execute, hreg]
    cases ht : (meta name).timeout with
    | none => exact mapError_user_ne_stepNotFound _ msg
    | some tv =>
        by_cases hz : (tv != 0) = true
        · by_cases hgt : f.duration > tv
          · simp [hz, hgt]
          · simp only [hz, if_true, if_neg hgt]
            exact mapError_user_ne_stepNotFound _ msg
        · simp only [hz, if_false]
          exact mapError_user_ne_stepNotFound _ msg

/-- Witness for C7_step_not_found: the empty registry fails on "missing"
with the step-not-found error, and a registry holding "a" does not produce
that error for "a". -/
theorem C7_step_not_found_witness :
    execute (a := Unit) [] (fun _ => StepMetaT.mk none) "missing"
      = Except.error (ExecErr.stepNotFound "Step not found: missing")
    ∧ execute (a := Unit)
        [("a", FuncBeh.mk 0 (FBody.plain (Except.ok none)))]
        (fun _ => StepMetaT.mk none) "a"
      ≠ Except.error (ExecErr.stepNotFound "Step not found: a") := by
  constructor
  · exact (C7_step_not_found [] (fun _ => StepMetaT.mk none) "missing").1 rfl
  · exact (C7_step_not_found
      [("a", FuncBeh.mk (a := Unit) 0 (FBody.plain (Except.ok none)))]
      (fun _ => StepMetaT.mk none) "a").2
      (FuncBeh.mk 0 (FBody.plain (Except.ok none))) rfl "Step not found: a"

/-- Claim C6 (confirmed): with a positive configured timeout `t`, `execute`
runs the invocation under a `t`-second deadline: an invocation lasting
longer than `t` fails with the TimeoutError carrying the step name and the
seconds, whose message contains "timed out"; an invocation completing
within `t` returns the body result unchanged. -/
theorem C6_timeout {a : Type} (steps : List (String × FuncBeh a))
    (meta : String → StepMetaT) (name : String) (f : FuncBeh a) (t : ℚ)
    (hreg : lookupStr steps name = some f)
    (hmeta : (meta name).timeout = some t) (hpos : 0 < t) :
    (t < f.duration →
        execute steps meta name
          = Except.error (ExecErr.timeout (timeoutMsg name t)))
    ∧ (f.duration ≤ t →
        execute steps meta name = (execBody name f.body).mapError ExecErr.user)
    ∧ timeoutMsg name t
        = ("Step \x27" ++ name ++ "\x27 ") ++ "timed out"
          ++ (" after " ++ toString t ++ "s") := by
  have hz : (t != 0) = true := by simp [bne_iff_ne, hpos.ne']
  refine ⟨?_, ?_, ?_⟩
  · intro hgt
    simp [execute, hreg, hmeta, hz, hgt]
  · intro hle
    simp [execute, hreg, hmeta, hz, not_lt.mpr hle]
  · unfold timeoutMsg
    simp only [← String.append_assoc]
    congr 2
    simp only [String.append_assoc]
    congr 1

/-- Witness for C6_timeout: the step "slow" takes 2 seconds against a
1-second timeout and fails with the TimeoutError; the step "fast" takes 0
seconds against the same timeout and returns its value unchanged. -/
theorem C6_timeout_witness :
    execute (a := Unit)
        [("slow", FuncBeh.mk 2 (FBody.plain (Except.ok none)))]
        (fun _ => StepMetaT.mk (some 1)) "slow"
      = Except.error (ExecErr.timeout (timeoutMsg "slow" 1))
    ∧ execute (a := Unit)
        [("fast", FuncBeh.mk 0 (FBody.plain (Except.ok none)))]
        (fun _ => StepMetaT.mk (some 1)) "fast"
      = Except.ok (none, []) := by
  constructor
  · exact (C6_timeout
      [("slow", FuncBeh.mk (a := Unit) 2 (FBody.plain (Except.ok none)))]
      (fun _ => StepMetaT.mk (some 1)) "slow"
      (FuncBeh.mk 2 (FBody.plain (Except.ok none))) 1 rfl rfl (by decide)).1
      (by decide)
  · exact ((C6_timeout
      [("fast", FuncBeh.mk (a := Unit) 0 (FBody.plain (Except.ok none)))]
      (fun _ => StepMetaT.mk (some 1)) "fast"
      (FuncBeh.mk 0 (FBody.plain (Except.ok none))) 1 rfl rfl (by decide)).2.1
      (by decide)).trans rfl

/-- Claim C9 (confirmed): a step whose configured timeout is absent, `None`
or `0` runs with no deadline at all — the timeout value is falsy, and the
body result is returned unchanged whatever the invocation duration. -/
theorem C9_zero_timeout_disables {a : Type} (steps : List (String × FuncBeh a))
    (meta : String → StepMetaT) (name : String) (f : FuncBeh a)
    (hreg : lookupStr steps name = some f)
    (hfalsy : (meta name).timeout = none ∨ (meta name).timeout = some 0) :
    timeoutTruthy ((meta name).timeout) = false
    ∧ execute steps meta name
        = (execBody name f.body).mapError ExecErr.user := by
  rcases hfalsy with h | h
  · exact ⟨by simp [timeoutTruthy, h], by simp [execute, hreg, h]⟩
  · refine ⟨by simp [timeoutTruthy, h], ?_⟩
    simp [execute, hreg, h]

/-- Witness for C9_zero_timeout_disables: a step with `timeout=0` and an
invocation lasting a million seconds still returns its value. -/
theorem C9_zero_timeout_disables_witness :
    timeoutTruthy (some 0) = false
    ∧ execute (a := Unit)
        [("s", FuncBeh.mk 1000000 (FBody.plain (Except.ok none)))]
        (fun _ => StepMetaT.mk (some 0)) "s"
      = Except.ok (none, []) := by
  have h := C9_zero_timeout_disables
    [("s", FuncBeh.mk (a := Unit) 1000000 (FBody.plain (Except.ok none)))]
    (fun _ => StepMetaT.mk (some 0)) "s"
    (FuncBeh.mk 1000000 (FBody.plain (Except.ok none))) rfl (Or.inr rfl)
  exact ⟨h.1, h.2.trans rfl⟩

/-- Helper: `_analyze_signature` succeeds exactly when the unknowns do not
exceed the expected count. -/
theorem analyzeSignature_isOk (fname : String) (params : List Param)
    (st ct : Ty) (n : Nat) :
    (analyzeSignature fname params st ct n).isOk = true
      ↔ (unknownsOf st ct params).length ≤ n := by
  unfold analyzeSignature
  dsimp only
  split_ifs with h <;> simp [Except.isOk, Except.toBool] <;> omega

/-- Helper: registration succeeds exactly when the signature analysis of the
user callable succeeds. -/
theorem registerStepConfig_isOk (wrap : Nat → Nat) (st ct : Ty)
    (p : PipeState) (stage : String) (func : PyFunc) (m : StepMetaRec) :
    (registerStepConfig wrap st ct p stage func m).isOk
      = (analyzeSignature func.fname func.params st ct
          registerExpectedUnknowns).isOk := by
  unfold registerStepConfig
  cases h : analyzeSignature func.fname func.params st ct
      registerExpectedUnknowns <;>
    simp [h, Except.isOk, Except.toBool]

/-- Claim C2 (corrected): `_register_step_config` — the registration path
shared by the `step`, `map`, `switch` and `sub` decorators — analyzes every
user callable against the default `expected_unknowns = 1`, so registration
of any step kind succeeds exactly when the callable has at most one
unrecognized parameter; only error handlers are analyzed with expected
unknowns 0. -/
theorem C2_register_unknowns (wrap : Nat → Nat) (st ct : Ty) (p : PipeState)
    (stage : String) (func : PyFunc) (m : StepMetaRec) :
    ((registerStepConfig wrap st ct p stage func m).isOk = true
      ↔ (unknownsOf st ct func.params).length ≤ 1)
    ∧ registerExpectedUnknowns = 1
    ∧ onErrorExpectedUnknowns = 0
    ∧ (∀ fname params,
        (analyzeSignature fname params st ct onErrorExpectedUnknowns).isOk
            = true
          ↔ (unknownsOf st ct params).length = 0) := by
  refine ⟨?_, rfl, rfl, ?_⟩
  · rw [registerStepConfig_isOk, analyzeSignature_isOk]
    simp [registerExpectedUnknowns]
  · intro fname params
    rw [analyzeSignature_isOk]
    simp [onErrorExpectedUnknowns]

/-- Counterexample to claim C2 as stated: a plain step callable with exactly
one unrecognized (non-injected, non-defaulted) parameter "foo" registers
successfully, although the claim requires registration to fail for any
nonzero number of unknowns on a plain step. -/
theorem C2_counterexample :
    (registerStepConfig id Ty.any Ty.any (PipeState.mk [] [] []) "a"
        (PyFunc.mk 0 "a" [Param.mk "foo" none false])
        (StepMetaRec.mk none none none)).isOk = true
    ∧ unknownsOf Ty.any Ty.any [Param.mk "foo" none false] = ["foo"] := by
  exact ⟨rfl, rfl⟩

/-- Claim C4 (corrected): registering a second step under an
already-registered name is not an error — success depends only on the new
callable signature, never on the existing entry — and it silently replaces
the stored callable and metadata: after the second registration the registry
holds the new wrapped callable and the new metadata record. -/
theorem C4_register_overwrites (wrap : Nat → Nat) (st ct : Ty) (p : PipeState)
    (stage : String) (f1 f2 : PyFunc) (m1 m2 : StepMetaRec) (s1 s2 : PipeState)
    (h1 : registerStepConfig wrap st ct p stage f1 m1 = Except.ok s1)
    (h2 : registerStepConfig wrap st ct s1 stage f2 m2 = Except.ok s2) :
    lookupStr s1.steps stage = some (wrap f1.fid)
    ∧ lookupStr s2.steps stage = some (wrap f2.fid)
    ∧ lookupStr s2.stepMeta stage = some m2
    ∧ ∀ q : PipeState, (registerStepConfig wrap st ct q stage f2 m2).isOk
        = (registerStepConfig wrap st ct s1 stage f2 m2).isOk := by
  refine ⟨?_, ?_, ?_, ?_⟩
  · unfold registerStepConfig at h1
    cases ha : analyzeSignature f1.fname f1.params st ct
        registerExpectedUnknowns with
    | error e => rw [ha] at h1; exact absurd h1 (by simp)
    | ok inj =>
        rw [ha] at h1
        cases h1
        exact lookupStr_dictSet_self _ stage _
  · unfold registerStepConfig at h2
    cases ha : analyzeSignature f2.fname f2.params st ct
        registerExpectedUnknowns with
    | error e => rw [ha] at h2; exact absurd h2 (by simp)
    | ok inj =>
        rw [ha] at h2
        cases h2
        exact lookupStr_dictSet_self _ stage _
  · unfold registerStepConfig at h2
    cases ha : analyzeSignature f2.fname f2.params st ct
        registerExpectedUnknowns with
    | error e => rw [ha] at h2; exact absurd h2 (by simp)
    | ok inj =>
        rw [ha] at h2
        cases h2
        exact lookupStr_dictSet_self _ stage _
  · intro q
    rw [registerStepConfig_isOk, registerStepConfig_isOk]

/-- Witness for C4_register_overwrites: register the parameterless callable
id 1 as "a", then callable id 2 under the same name; both registrations
succeed and the registry then maps "a" to callable 2 with the second
metadata record. -/
theorem C4_register_overwrites_witness :
    lookupStr (PipeState.mk
        [("a", 2)] [("a", StepMetaRec.mk (some 1) none none)]
        [("a", [])]).steps "a" = some 2
    ∧ lookupStr (PipeState.mk
        [("a", 2)] [("a", StepMetaRec.mk (some 1) none none)]
        [("a", [])]).stepMeta "a" = some (StepMetaRec.mk (some 1) none none) := by
  have h := C4_register_overwrites id Ty.any Ty.any (PipeState.mk [] [] [])
    "a" (PyFunc.mk 1 "f1" []) (PyFunc.mk 2 "f2" [])
    (StepMetaRec.mk none none none) (StepMetaRec.mk (some 1) none none)
    (PipeState.mk [("a", 1)] [("a", StepMetaRec.mk none none none)]
      [("a", [])])
    (PipeState.mk [("a", 2)] [("a", StepMetaRec.mk (some 1) none none)]
      [("a", [])])
    rfl rfl
  exact ⟨h.2.1, h.2.2.1⟩

/-- Counterexample to claim C4 as stated: registering callable id 1 as step
"a" and then callable id 2 under the same name "a" raises no error — both
registrations return ok — and the second registration silently replaces the
first: the registry afterwards maps "a" to callable 2, while after the first
registration it mapped "a" to callable 1. -/
theorem C4_counterexample :
    ((registerStepConfig id Ty.any Ty.any (PipeState.mk [] [] []) "a"
          (PyFunc.mk 1 "f1" []) (StepMetaRec.mk none none none)).bind
        fun s1 => registerStepConfig id Ty.any Ty.any s1 "a"
          (PyFunc.mk 2 "f2" []) (StepMetaRec.mk none none none)).map
        (fun s2 => lookupStr s2.steps "a")
      = Except.ok (some 2)
    ∧ (registerStepConfig id Ty.any Ty.any (PipeState.mk [] [] []) "a"
          (PyFunc.mk 1 "f1" []) (StepMetaRec.mk none none none)).map
        (fun s => lookupStr s.steps "a")
      = Except.ok (some 1) := by
  exact ⟨rfl, rfl⟩

/-- Helper: the by-name part of the classification chain agrees with the
spec rendering of rules 2-4. -/
theorem nameChain_eq_spec (p : Param) :
    (if p.name ∈ STATE_ALIASES then some Source.state
     else if p.name ∈ CONTEXT_ALIASES then some Source.context
     else if p.name ∈ ERROR_ALIASES then some Source.error
     else if p.name ∈ STEP_NAME_ALIASES then some Source.stepName
     else if p.hasDefault then none else some Source.unknown)
    = match specAssignByName p with
      | some src => some src
      | none => if p.hasDefault then none else some Source.unknown := by
  unfold specAssignByName
  simp only [STATE_ALIASES, CONTEXT_ALIASES, ERROR_ALIASES, STEP_NAME_ALIASES,
    List.mem_cons, List.mem_singleton, List.not_mem_nil, or_false]
  by_cases n1 : p.name = "s" ∨ p.name = "state"
  · simp [n1]
  · simp only [if_neg n1]
    by_cases n2 : p.name = "c" ∨ p.name = "ctx" ∨ p.name = "context"
    · simp [n2]
    · simp only [if_neg n2]
      by_cases n3 : p.name = "e" ∨ p.name = "error" ∨ p.name = "exception"
      · simp [n3]
      · simp only [if_neg n3]
        by_cases n4 : p.name = "step_name" ∨ p.name = "stage"
        · simp [n4]
        · simp [n4]

/-- Helper: the per-parameter classification of the source loop agrees with
the per-parameter rules written from the spec. -/
theorem paramSource_eq_spec (st ct : Ty) (p : Param) :
    paramSource st ct p = specParamSource st ct p := by
  unfold paramSource specParamSource specAssignByType
  by_cases h1 : p.ann = some st ∧ st ≠ Ty.any
  · have c1 : (p.ann = some st ∧ st ≠ Ty.any) = True := eq_true h1
    have c1s : (st ≠ Ty.any ∧ p.ann = some st) = True := eq_true ⟨h1.2, h1.1⟩
    simp only [c1, c1s, if_true]
  · have c1 : (p.ann = some st ∧ st ≠ Ty.any) = False := eq_false h1
    have c1s : (st ≠ Ty.any ∧ p.ann = some st) = False :=
      eq_false fun hc => h1 ⟨hc.2, hc.1⟩
    by_cases h2 : p.ann = some ct ∧ ct ≠ Ty.any
    · have c2 : (p.ann = some ct ∧ ct ≠ Ty.any) = True := eq_true h2
      have c2s : (ct ≠ Ty.any ∧ p.ann = some ct) = True := eq_true ⟨h2.2, h2.1⟩
      simp only [c1, c1s, c2, c2s, if_true, if_false]
    · have c2 : (p.ann = some ct ∧ ct ≠ Ty.any) = False := eq_false h2
      have c2s : (ct ≠ Ty.any ∧ p.ann = some ct) = False :=
        eq_false fun hc => h2 ⟨hc.2, hc.1⟩
      simp only [c1, c1s, c2, c2s, if_false]
      exact nameChain_eq_spec p

/-- Claim C8 (confirmed): the injection mapping built at registration assigns
every parameter exactly by the spec rules, in order — by annotated type when
the annotation is precisely the state or context type and that type is not
the wildcard; else by name through the exact alias tables; else parameters
with a default value are ignored; all remaining parameters are unknowns. -/
theorem C8_signature_rules (st ct : Ty) (params : List Param) :
    buildMapping st ct params
      = params.filterMap fun p =>
          (specParamSource st ct p).map fun src => (p.name, src) := by
  unfold buildMapping
  induction params with
  | nil => rfl
  | cons p rest ih =>
      simp only [List.filterMap_cons, paramSource_eq_spec, ih]

/-! Declarative rendering of the generator contract (spec section 4.1),
used to state the amended claim C3. -/

/-- The last routing value recognized by the generator loop among the
yielded items (`Stop` and plain values are not recognized). -/
def specLastRouting {a : Type} (items : List (Yielded a)) :
    Option (Routing a) :=
  (items.filterMap routingOf).getLast?

/-- The TOKEN events the generator loop emits: every yielded item not
recognized as a routing value, tagged with the step name, in yield order. -/
def specTokens {a : Type} (name : String) (items : List (Yielded a)) :
    List (Event a) :=
  (items.filter fun i => (routingOf i).isNone).map
    fun i => Event.mk EventType.TOKEN name i

/-- Helper: one loop iteration, phrased through the recognized routing
value. -/
theorem genStep_eq {a : Type} (name : String)
    (acc : Option (Routing a) × List (Event a)) (i : Yielded a) :
    genStep name acc i
      = match routingOf i with
        | some r => (some r, acc.2)
        | none => (acc.1, acc.2 ++ [Event.mk EventType.TOKEN name i]) := by
  cases i with
  | route r => cases r <;> rfl
  | value v => rfl

/-- Helper: the head element of a list is the last resort of `getLast?`. -/
theorem getLast?_cons_or {b : Type} (l : List b) (x : b) :
    (x :: l).getLast? = l.getLast?.or (some x) := by
  cases l with
  | nil => rfl
  | cons y ys =>
      rw [List.getLast?_cons_cons]
      cases h : (y :: ys).getLast? with
      | some z => rfl
      | none =>
          exfalso
          rw [List.getLast?_eq_none_iff] at h
          exact List.cons_ne_nil y ys h

/-- Helper: the generator loop from an arbitrary accumulator. -/
theorem consumeGen_fold {a : Type} (name : String) (items : List (Yielded a)) :
    ∀ acc : Option (Routing a) × List (Event a),
      items.foldl (genStep name) acc
        = ((specLastRouting items).or acc.1, acc.2 ++ specTokens name items) := by
  induction items with
  | nil =>
      intro acc
      simp [specLastRouting, specTokens]
  | cons i rest ih =>
      intro acc
      rw [List.foldl_cons, genStep_eq]
      cases h : routingOf i with
      | some r =>
          rw [ih]
          simp only [specLastRouting, specTokens, List.filterMap_cons, h,
            List.filter_cons, Option.isNone_some, Bool.false_eq_true,
            if_false, getLast?_cons_or, Option.or_assoc]
          rfl
      | none =>
          rw [ih]
          simp [specLastRouting, specTokens, List.filterMap_cons, h,
            List.filter_cons, List.append_assoc]

/-- Claim C3 (corrected): `execute` on an async-generator step consumes the
generator; every yielded item recognized by the isinstance test — `Next`,
`Map`, `Run` or `Suspend`, but NOT `Stop` — replaces the last routing
decision, every other yielded item (plain values and a yielded `Stop`
alike) is put on the queue as a TOKEN event tagged with the step name, and
the return value is the last recognized routing value, or `None` when none
was yielded. -/
theorem C3_generator_protocol {a : Type} (steps : List (String × FuncBeh a))
    (meta : String → StepMetaT) (name : String) (f : FuncBeh a)
    (items : List (Yielded a))
    (hreg : lookupStr steps name = some f) (hbody : f.body = FBody.gen items)
    (ht : timeoutTruthy ((meta name).timeout) = false) :
    execute steps meta name
      = Except.ok ((specLastRouting items).map Yielded.route,
          specTokens name items)
    ∧ routingOf (Yielded.route (Routing.stop : Routing a)) = none := by
  refine ⟨?_, rfl⟩
  have hexec : execute steps meta name
      = (execBody name f.body).mapError ExecErr.user := by
    cases htv : (meta name).timeout with
    | none => simp [execute, hreg, htv]
    | some tv =>
        rw [htv] at ht
        simp only [timeoutTruthy] at ht
        simp [execute, hreg, htv, ht]
  rw [hexec, hbody]
  have hb : execBody name (FBody.gen items)
      = Except.ok ((consumeGen name items).1.map Yielded.route,
          (consumeGen name items).2) := rfl
  rw [hb]
  unfold consumeGen
  rw [consumeGen_fold]
  simp [Except.mapError]

/-- Witness for C3_generator_protocol: a generator yielding the plain values
1 and 2 around a `Next "b"` and ending with `Suspend` produces TOKEN events
for 1 and 2 only and returns the `Suspend` routing decision. -/
theorem C3_generator_protocol_witness :
    execute
        [("g", FuncBeh.mk (a := Nat) 0 (FBody.gen
          [Yielded.value 1, Yielded.route (Routing.next "b"),
           Yielded.value 2, Yielded.route Routing.suspend]))]
        (fun _ => StepMetaT.mk none) "g"
      = Except.ok (some (Yielded.route Routing.suspend),
          [Event.mk EventType.TOKEN "g" (Yielded.value 1),
           Event.mk EventType.TOKEN "g" (Yielded.value 2)]) := by
  have h := C3_generator_protocol
    [("g", FuncBeh.mk (a := Nat) 0 (FBody.gen
      [Yielded.value 1, Yielded.route (Routing.next "b"),
       Yielded.value 2, Yielded.route Routing.suspend]))]
    (fun _ => StepMetaT.mk none) "g"
    (FuncBeh.mk 0 (FBody.gen
      [Yielded.value 1, Yielded.route (Routing.next "b"),
       Yielded.value 2, Yielded.route Routing.suspend]))
    [Yielded.value 1, Yielded.route (Routing.next "b"),
     Yielded.value 2, Yielded.route Routing.suspend]
    rfl rfl rfl
  exact h.1.trans rfl

/-- Counterexample to claim C3 as stated: a generator that yields exactly
the routing value `Stop` does not have it remembered as the routing
decision — `execute` returns `None` and puts the yielded `Stop` on the
queue as a TOKEN event, instead of returning the `Stop` routing value with
no TOKEN. -/
theorem C3_counterexample :
    execute
        [("g", FuncBeh.mk (a := Nat) 0
          (FBody.gen [Yielded.route Routing.stop]))]
        (fun _ => StepMetaT.mk none) "g"
      = Except.ok (none,
          [Event.mk EventType.TOKEN "g" (Yielded.route Routing.stop)])
    ∧ execute
        [("g", FuncBeh.mk (a := Nat) 0
          (FBody.gen [Yielded.route Routing.stop]))]
        (fun _ => StepMetaT.mk none) "g"
      ≠ Except.ok (some (Yielded.route Routing.stop), []) := by
  constructor
  · rfl
  · intro hbad
    rw [show execute
        [("g", FuncBeh.mk (a := Nat) 0
          (FBody.gen [Yielded.route Routing.stop]))]
        (fun _ => StepMetaT.mk none) "g"
      = Except.ok (none,
          [Event.mk EventType.TOKEN "g" (Yielded.route Routing.stop)])
      from rfl] at hbad
    simp at hbad

end JustPipe
